import Mathlib

/-!
Verification of the retrying HTTP client (`src/api/client.py`) of the
playwright-python-boilerplate repository, as a shallow embedding in Lean 4.

Modelling conventions:
* Python strings are Lean `String`s; `str.rstrip("/")`, `str.lstrip("/")`
  and `str.startswith` are modelled on the underlying character lists.
* The httpx transport is an explicit function from the prepared request and
  the (0-based) attempt index to either an exception or a response.
* Python exceptions relevant to the client are an inductive type carrying
  the classification used by the tenacity predicate
  `retry_if_exception_type((httpx.RequestError, httpx.ReadTimeout))`
  (in httpx, `ReadTimeout` is itself a subclass of `RequestError`).
* The tenacity decorator `@retry(stop=stop_after_attempt(3),
  wait=wait_exponential(multiplier=1, min=2, max=10), ...)` is modelled by
  an explicit retry loop returning the outcome together with the number of
  attempts made and the list of backoff waits (in whole seconds: all waits
  produced by these parameters are integral).
* Timeouts are modelled in whole seconds (the source only uses 30.0, 5.0).
-/

namespace PWClient

/-- Model of Python `s.rstrip("/")`: drop all trailing `/` characters. -/
def rstripSlash (s : String) : String :=
  String.mk ((s.data.reverse.dropWhile (fun c => c == '/')).reverse)

/-- Model of Python `s.lstrip("/")`: drop all leading `/` characters. -/
def lstripSlash (s : String) : String :=
  String.mk (s.data.dropWhile (fun c => c == '/'))

/-- Model of Python `s.startswith(p)`. -/
def pyStartsWith (s p : String) : Bool :=
  p.data.isPrefixOf s.data

/-- Does the string end with a `/` character? -/
def endsWithSlash (s : String) : Bool :=
  s.data.getLast? == some '/'

/-- Does the string start with a `/` character? -/
def startsWithSlash (s : String) : Bool :=
  s.data.head? == some '/'

/-- Header lists model httpx `Headers`: association lists with
case-insensitive keys (lookup and replacement compare lowercased keys). -/
abbrev HdrList := List (String × String)

/-- ASCII lowercase of a character (HTTP header keys are ASCII). -/
def lowerChar (c : Char) : Char :=
  if 'A' ≤ c ∧ c ≤ 'Z' then Char.ofNat (c.toNat + 32) else c

/-- ASCII lowercase of a string, modelling the case folding httpx
applies to header keys. -/
def pyLower (s : String) : String := String.mk (s.data.map lowerChar)

/-- ASCII uppercase of a character. -/
def upperChar (c : Char) : Char :=
  if 'a' ≤ c ∧ c ≤ 'z' then Char.ofNat (c.toNat - 32) else c

/-- Model of Python `str.upper()` on ASCII method names. -/
def pyUpper (s : String) : String := String.mk (s.data.map upperChar)

/-- Case-insensitive header lookup with a default, modelling
`headers.get(key, default)` on httpx case-insensitive headers. -/
def headersGet (hs : HdrList) (key dflt : String) : String :=
  match hs.find? (fun kv => pyLower kv.1 == pyLower key) with
  | some kv => kv.2
  | none => dflt

/-- `headers[key] = value` on httpx `Headers`: replace the entry whose key
matches case-insensitively, else append. -/
def setHeader (hs : HdrList) (key val : String) : HdrList :=
  if hs.any (fun kv => pyLower kv.1 == pyLower key) then
    hs.map (fun kv => if pyLower kv.1 == pyLower key then (kv.1, val) else kv)
  else hs ++ [(key, val)]

/-- Merge per-call headers over base headers, per-call wins (httpx merge). -/
def mergeHeaders (base override : HdrList) : HdrList :=
  override.foldl (fun acc kv => setHeader acc kv.1 kv.2) base

/-- Client state: `base_url` string and the default headers held by the
owned `httpx.AsyncClient`. -/
structure Client where
  base_url : String
  headers : HdrList
deriving Repr, DecidableEq

/-- The built-in default headers set in `APIClient.__init__`. -/
def defaultHeaders : HdrList :=
  [("Content-Type", "application/json"),
   ("Accept", "application/json"),
   ("User-Agent", "API-Test-Client/1.0")]

/-- `APIClient.__init__(base_url, default_headers)`:
`self.base_url = base_url.rstrip("/") if base_url else ""`, and the extra
default headers are merged over the built-in ones (`headers.update(...)`). -/
def APIClient.init (base_url : String) (default_headers : Option HdrList) : Client :=
  { base_url := if base_url ≠ "" then rstripSlash base_url else ""
    headers :=
      match default_headers with
      | some hs => mergeHeaders defaultHeaders hs
      | none => defaultHeaders }

/-- `set_auth_token(token)`: `self.client.headers["Authorization"] = f"Bearer {token}"`. -/
def set_auth_token (c : Client) (token : String) : Client :=
  { c with headers := setHeader c.headers "Authorization" ("Bearer " ++ token) }

/-- `set_base_url(base_url)`: `self.base_url = base_url.rstrip("/")`. -/
def set_base_url (c : Client) (base_url : String) : Client :=
  { c with base_url := rstripSlash base_url }

/-- `_build_url(endpoint)`. -/
def _build_url (c : Client) (endpoint : String) : String :=
  if pyStartsWith endpoint "http://" || pyStartsWith endpoint "https://" then
    endpoint
  else if c.base_url ≠ "" then
    c.base_url ++ "/" ++ lstripSlash endpoint
  else
    endpoint

/-- JSON values, used both for request bodies and for parsed response
bodies.  Numbers are modelled as integers (the claims never exercise
floating-point JSON numbers). -/
inductive JsonVal
  | null
  | bool (b : Bool)
  | num (n : Int)
  | str (s : String)
  | arr (elems : List JsonVal)
  | obj (fields : List (String × JsonVal))
deriving Repr

/-- Compact JSON serialization of a string (model of the quoting performed
by Python `json.dumps`; only quote and backslash escapes are modelled). -/
def jsonQuote (s : String) : String :=
  "\"" ++ String.mk (s.data.flatMap (fun c =>
    if c == '"' then ['\\', '"']
    else if c == '\\' then ['\\', '\\']
    else [c])) ++ "\""

mutual

/-- Model of Python `json.dumps` (default separators). -/
def jsonSerialize : JsonVal → String
  | .null => "null"
  | .bool true => "true"
  | .bool false => "false"
  | .num n => toString n
  | .str s => jsonQuote s
  | .arr elems => "[" ++ jsonSerializeList elems ++ "]"
  | .obj fields => "\x7b" ++ jsonSerializeFields fields ++ "\x7d"

/-- Serialize array elements, separated by ", ". -/
def jsonSerializeList : List JsonVal → String
  | [] => ""
  | [x] => jsonSerialize x
  | x :: xs => jsonSerialize x ++ ", " ++ jsonSerializeList xs

/-- Serialize object fields, separated by ", ", key and value by ": ". -/
def jsonSerializeFields : List (String × JsonVal) → String
  | [] => ""
  | [kv] => jsonQuote kv.1 ++ ": " ++ jsonSerialize kv.2
  | kv :: kvs => jsonQuote kv.1 ++ ": " ++ jsonSerialize kv.2 ++ ", " ++ jsonSerializeFields kvs

end

/-- The runtime value passed as the `data` argument of `request`
(`Optional[Union[Dict, List, str]]`, though Python also admits other
scalars at runtime). -/
inductive ReqData
  | dict (fields : List (String × JsonVal))
  | list (elems : List JsonVal)
  | strVal (s : String)
  | intVal (n : Int)
  | boolVal (b : Bool)
deriving Repr

/-- Model of Python `str(...)` on the `data` values.  `mkBody` only
applies it to the scalar constructors (Python line 77 is reached only
when `data` is not a `dict`/`list`); the `dict`/`list` branches are
unreachable from the client and their value is immaterial. -/
def pyStr : ReqData → String
  | .dict fields => jsonSerialize (.obj fields)
  | .list elems => jsonSerialize (.arr elems)
  | .strVal s => s
  | .intVal n => toString n
  | .boolVal true => "True"
  | .boolVal false => "False"

/-- The body slot of the transport request kwargs: nothing, a `json=`
payload, or a raw `content=` payload. -/
inductive Body
  | empty
  | jsonBody (j : JsonVal)
  | content (s : String)
deriving Repr

/-- Lines 73-77 of `client.py`: `dict`/`list` data goes to `json=`,
any other non-`None` data goes to `content=str(data)`, `None` sends
no body. -/
def mkBody : Option ReqData → Body
  | none => .empty
  | some (.dict fields) => .jsonBody (.obj fields)
  | some (.list elems) => .jsonBody (.arr elems)
  | some d => .content (pyStr d)

/-- The bytes the transport puts on the wire for a given body slot:
httpx serializes a `json=` payload with `json.dumps`. -/
def wireContent : Body → Option String
  | .empty => none
  | .jsonBody j => some (jsonSerialize j)
  | .content s => some s

/-- Exception classes that can escape the transport call, following the
httpx exception hierarchy.  Under `httpx.RequestError` sit the
`NetworkError` family (`ConnectError`, `ReadError`, `WriteError`,
`CloseError`), the `TimeoutException` family (`ConnectTimeout`,
`ReadTimeout`, `WriteTimeout`, `PoolTimeout`), `ProtocolError`,
`ProxyError`, `UnsupportedProtocol`, `DecodingError` and
`TooManyRedirects`.  `InvalidURL` is not a `RequestError`, and
`otherExc` stands for any exception outside the httpx hierarchy. -/
inductive PyExc
  | connectError
  | readError
  | writeError
  | closeError
  | connectTimeout
  | readTimeout
  | writeTimeout
  | poolTimeout
  | protocolError
  | proxyError
  | unsupportedProtocol
  | decodingError
  | tooManyRedirects
  | invalidURL
  | otherExc (msg : String)
deriving Repr, DecidableEq

/-- `isinstance(e, httpx.RequestError)`: true for every class of the
`RequestError` subtree, false for `InvalidURL` and for exceptions
outside the httpx hierarchy. -/
def isRequestError : PyExc → Bool
  | .invalidURL => false
  | .otherExc _ => false
  | _ => true

/-- `isinstance(e, httpx.NetworkError)`: the transport-level
connection/network error family (`ConnectError`, `ReadError`,
`WriteError`, `CloseError`). -/
def isNetworkError : PyExc → Bool
  | .connectError => true
  | .readError => true
  | .writeError => true
  | .closeError => true
  | _ => false

/-- `isinstance(e, httpx.ReadTimeout)` (`ConnectTimeout` etc. are
sibling classes, not subclasses, of `ReadTimeout`). -/
def isReadTimeout : PyExc → Bool
  | .readTimeout => true
  | _ => false

/-- The tenacity predicate
`retry_if_exception_type((httpx.RequestError, httpx.ReadTimeout))`. -/
def shouldRetry (e : PyExc) : Bool :=
  isRequestError e || isReadTimeout e

/-- The raw httpx response handed back by the transport.  `jsonResult`
records what `response.json()` would do: `.ok v` when the body is valid
JSON with value `v`, `.error ()` when parsing raises. -/
structure Response where
  status_code : Nat
  headers : HdrList
  text : String
  jsonResult : Except Unit JsonVal
deriving Repr

/-- httpx `response.is_success`: status in 200-299. -/
def is_success (status : Nat) : Bool :=
  200 ≤ status && status ≤ 299

/-- The `data` field of the result: either parsed JSON or raw text. -/
inductive RespData
  | jsonData (j : JsonVal)
  | textData (s : String)
deriving Repr

/-- Lines 88-97 of `client.py`: parse the body as JSON when the
content-type header starts with `application/json`, falling back to the
raw text on any parse failure, and use the raw text otherwise. -/
def parseBody (r : Response) : RespData :=
  if pyStartsWith (headersGet r.headers "content-type" "") "application/json" then
    match r.jsonResult with
    | .ok j => .jsonData j
    | .error _ => .textData r.text
  else
    .textData r.text

/-- The dictionary `request` returns on a received response (the
`elapsed`/`response` fields carry wall-clock time and the raw response
object and are not modelled). -/
structure RequestResult where
  status : Nat
  ok : Bool
  headers : HdrList
  data : RespData
  text : String
deriving Repr

/-- Lines 107-115 of `client.py`: normalize a response into the result
dictionary. -/
def mkResult (r : Response) : RequestResult :=
  { status := r.status_code
    ok := is_success r.status_code
    headers := r.headers
    data := parseBody r
    text := r.text }

/-- The kwargs of the transport call
`self.client.request(method=method.upper(), url=url, **request_kwargs)`,
with `headers` being the effective wire headers: httpx merges the
client's default headers with the per-call override, per-call wins. -/
structure Prepared where
  method : String
  url : String
  headers : HdrList
  params : Option (List (String × String))
  timeout : Nat
  body : Body
deriving Repr

/-- Lines 62-77 and 84 of `client.py`: build the URL, the kwargs and the
body for one transport call. -/
def prepareRequest (c : Client) (method endpoint : String) (data : Option ReqData)
    (params : Option (List (String × String))) (headers : Option HdrList)
    (timeout : Nat) : Prepared :=
  { method := pyUpper method
    url := _build_url c endpoint
    headers := mergeHeaders c.headers (headers.getD [])
    params := params
    timeout := timeout
    body := mkBody data }

/-- A transport: given the prepared request and the 0-based attempt
index, either raise an exception or return a response.  The index lets a
single model capture transports whose behaviour changes across retry
attempts (fail twice then succeed, always fail, ...). -/
abbrev Transport := Prepared → Nat → Except PyExc Response

/-- What `request` ultimately raises: either the original exception
(non-retryable, re-raised by the `except`/`raise` at lines 117-119 and
passed through by tenacity), or tenacity's `RetryError` wrapping the
exception of the last attempt (tenacity's default `reraise=False`). -/
inductive Raised
  | direct (e : PyExc)
  | retryError (last : PyExc)
deriving Repr, DecidableEq

/-- Observable trace of one `request` call: the outcome, the total number
of attempts made, and the list of backoff waits (seconds) slept between
attempts. -/
structure RetryTrace where
  outcome : Except Raised RequestResult
  attempts : Nat
  waits : List Nat
deriving Repr

/-- tenacity `wait_exponential(multiplier, max, exp_base=2, min)` at
integral parameters: `max(max(0, min), min(multiplier * 2^(n-1), max))`
where `n` is the number of the attempt that just failed. -/
def wait_exponential (multiplier mn mx attemptNumber : Nat) : Nat :=
  max (max 0 mn) (min (multiplier * 2 ^ (attemptNumber - 1)) mx)

/-- tenacity `stop_after_attempt(m)`: stop once `attempt_number >= m`. -/
def stop_after_attempt (maxAttemptNumber attemptNumber : Nat) : Bool :=
  attemptNumber ≥ maxAttemptNumber

/-- tenacity's retry loop for the decorator on `request`:
`stop=stop_after_attempt(3)`, `wait=wait_exponential(multiplier=1, min=2,
max=10)`, retrying iff `shouldRetry`.  On success the result is returned
at once; on a non-retryable exception the exception propagates unchanged;
on a retryable exception the loop stops (raising `RetryError` around the
last exception) once the failed attempt's number reaches 3, else sleeps
the exponential wait and retries.  `fuel` only bounds the recursion; the
loop is entered with `fuel = 3` so the `fuel = 0` branch is unreachable
(the stop condition fires first). -/
def retryGo (f : Nat → Except PyExc RequestResult) :
    Nat → Nat → List Nat → RetryTrace
  | fuel, attemptNumber, ws =>
    match f (attemptNumber - 1) with
    | .ok r => ⟨.ok r, attemptNumber, ws⟩
    | .error e =>
      if shouldRetry e then
        if stop_after_attempt 3 attemptNumber then
          ⟨.error (.retryError e), attemptNumber, ws⟩
        else
          match fuel with
          | 0 => ⟨.error (.retryError e), attemptNumber, ws⟩
          | fuel' + 1 =>
            retryGo f fuel' (attemptNumber + 1)
              (ws ++ [wait_exponential 1 2 10 attemptNumber])
      else ⟨.error (.direct e), attemptNumber, ws⟩

/-- `request(method, endpoint, data, params, headers, timeout)`: prepare
the transport call once (the body of `request` is pure, so every retry
attempt prepares the same kwargs), then run it under the tenacity retry
policy, normalizing any received response into the result dictionary. -/
def request (c : Client) (t : Transport) (method endpoint : String)
    (data : Option ReqData) (params : Option (List (String × String)))
    (headers : Option HdrList) (timeout : Nat) : RetryTrace :=
  retryGo
    (fun i => (t (prepareRequest c method endpoint data params headers timeout) i).map mkResult)
    3 1 []

/-- `get(endpoint, **kwargs)` with a `timeout` kwarg. -/
def get (c : Client) (t : Transport) (endpoint : String) (timeout : Nat) : RetryTrace :=
  request c t "GET" endpoint none none none timeout

/-- `post(endpoint, data, **kwargs)` with a `timeout` kwarg. -/
def post (c : Client) (t : Transport) (endpoint : String) (data : Option ReqData)
    (timeout : Nat) : RetryTrace :=
  request c t "POST" endpoint data none none timeout

/-- `health_check()`: `GET health` with `timeout=5.0`; true iff the
returned status is 200; any exception is caught and becomes `false`. -/
def health_check (c : Client) (t : Transport) : Bool :=
  match (get c t "health" 5).outcome with
  | .ok r => r.status == 200
  | .error _ => false

/-- The mutating operations on client state. -/
inductive ClientOp
  | setBaseUrl (url : String)
  | setAuthToken (token : String)

/-- Apply one mutating operation. -/
def applyOp (c : Client) : ClientOp → Client
  | .setBaseUrl u => set_base_url c u
  | .setAuthToken t => set_auth_token c t

/-- Apply a sequence of mutating operations. -/
def applyOps (c : Client) : List ClientOp → Client
  | [] => c
  | op :: ops => applyOps (applyOp c op) ops

/-- A concrete JSON response used by witnesses. -/
def respOk : Response :=
  { status_code := 200
    headers := [("content-type", "application/json")]
    text := "\x7b\"id\": 1\x7d"
    jsonResult := .ok (.obj [("id", .num 1)]) }

/-- A concrete 404 HTML response used by witnesses. -/
def resp404 : Response :=
  { status_code := 404
    headers := [("content-type", "text/html")]
    text := "not found"
    jsonResult := .error () }

/-- A concrete client used by witnesses. -/
def clientEx : Client := APIClient.init "https://api.staging.example.com" none

/-- Transport raising a connection error on attempts 1-2 and succeeding
on attempt 3. -/
def transportFailTwice : Transport := fun _ i =>
  if i < 2 then .error .connectError else .ok respOk

/-- Transport raising a connection error on every attempt. -/
def transportAlwaysConnectError : Transport := fun _ _ => .error .connectError

/-- Transport raising a read timeout on every attempt. -/
def transportReadTimeout : Transport := fun _ _ => .error .readTimeout

/-- Transport raising a malformed-URL error on every attempt. -/
def transportInvalidURL : Transport := fun _ _ => .error .invalidURL

/-- Transport returning the JSON response on every attempt. -/
def transportOk : Transport := fun _ _ => .ok respOk

/-- Transport returning the 404 response on every attempt. -/
def transport404 : Transport := fun _ _ => .ok resp404

/-- Transport raising connection errors on attempts 1-2 and a read
timeout on attempt 3. -/
def transportLastReadTimeout : Transport := fun _ i =>
  if i < 2 then .error .connectError else .error .readTimeout

/-- Transport raising a `DecodingError` on every attempt. -/
def transportDecodingError : Transport := fun _ _ => .error .decodingError

/-- Transport raising a `DecodingError` on attempt 1 and succeeding on
attempt 2. -/
def transportDecodingThenOk : Transport := fun _ i =>
  if i = 0 then .error .decodingError else .ok respOk

lemma endsWithSlash_rstripSlash (s : String) : endsWithSlash (rstripSlash s) = false := by
  have h := List.head?_dropWhile_not (fun c => c == '/') s.data.reverse
  show ((s.data.reverse.dropWhile (fun c => c == '/')).reverse.getLast? == some '/') = false
  rw [List.getLast?_reverse, beq_eq_false_iff_ne]
  intro heq
  rw [heq] at h
  simp at h

lemma startsWithSlash_lstripSlash (e : String) : startsWithSlash (lstripSlash e) = false := by
  have h := List.head?_dropWhile_not (fun c => c == '/') e.data
  show ((e.data.dropWhile (fun c => c == '/')).head? == some '/') = false
  rw [beq_eq_false_iff_ne]
  intro heq
  rw [heq] at h
  simp at h

lemma rstripSlash_append_slash (s : String) : rstripSlash (s ++ "/") = rstripSlash s := by
  unfold rstripSlash
  congr 1
  rw [String.data_append]
  simp

lemma lstripSlash_slash_append (e : String) : lstripSlash ("/" ++ e) = lstripSlash e := rfl

lemma endsWithSlash_init (b : String) (dh : Option HdrList) :
    endsWithSlash (APIClient.init b dh).base_url = false := by
  unfold APIClient.init
  by_cases hb : b = ""
  · subst hb
    rfl
  · simp [hb, endsWithSlash_rstripSlash]

lemma endsWithSlash_applyOps (c : Client) (ops : List ClientOp)
    (h : endsWithSlash c.base_url = false) :
    endsWithSlash (applyOps c ops).base_url = false := by
  induction ops generalizing c with
  | nil => exact h
  | cons op rest ih =>
    cases op with
    | setBaseUrl u => exact ih _ (endsWithSlash_rstripSlash u)
    | setAuthToken tk => exact ih _ h

/-- C4: for every reachable client state and endpoint string, an absolute
endpoint (scheme-prefixed) is returned unchanged; a relative endpoint with
a configured base URL yields base ++ "/" ++ endpoint-with-leading-slashes
stripped; with no base URL the relative endpoint is returned unchanged;
and, when a base is configured, leading/trailing slash variants of
endpoint/base build the same URL. -/
theorem c4_build_url (b : String) (dh : Option HdrList) (ops : List ClientOp)
    (e : String) (c : Client) (hc : c = applyOps (APIClient.init b dh) ops) :
    endsWithSlash c.base_url = false ∧
    ((pyStartsWith e "http://" || pyStartsWith e "https://") = true →
      _build_url c e = e) ∧
    ((pyStartsWith e "http://" || pyStartsWith e "https://") = false →
      c.base_url ≠ "" →
      _build_url c e = c.base_url ++ "/" ++ lstripSlash e) ∧
    ((pyStartsWith e "http://" || pyStartsWith e "https://") = false →
      c.base_url = "" → _build_url c e = e) ∧
    ((pyStartsWith e "http://" || pyStartsWith e "https://") = false →
      ∀ u, rstripSlash u ≠ "" →
        _build_url (set_base_url c (u ++ "/")) ("/" ++ e) =
          _build_url (set_base_url c u) e) := by
  refine ⟨?_, ?_, ?_, ?_, ?_⟩
  · exact hc ▸ endsWithSlash_applyOps _ _ (endsWithSlash_init b dh)
  · intro h
    simp [_build_url, h]
  · intro h hne
    simp [_build_url, h, hne]
  · intro h he
    simp [_build_url, h, he]
  · intro h u hu
    have habs : (pyStartsWith ("/" ++ e) "http://" ||
        pyStartsWith ("/" ++ e) "https://") = false := rfl
    simp [_build_url, habs, h, set_base_url, rstripSlash_append_slash,
      lstripSlash_slash_append, hu]

/-- Witness for C4 at concrete inputs. -/
theorem c4_build_url_witness :
    _build_url (applyOps (APIClient.init "https://api.example.com/" none) []) "posts/1" =
      "https://api.example.com/posts/1" := by
  have h := c4_build_url "https://api.example.com/" none [] "posts/1" _ rfl
  have h2 := h.2.2.1 (by rfl) (by decide)
  rw [h2]
  rfl

/-- C10: after construction and any sequence of set_base_url /
set_auth_token calls, the stored base URL never ends with "/", and every
URL built for a relative endpoint joins base and endpoint with exactly
one "/" (the base does not end in "/", the remainder does not start
with "/"). -/
theorem c10_base_url_invariant (b : String) (dh : Option HdrList) (ops : List ClientOp) :
    endsWithSlash (applyOps (APIClient.init b dh) ops).base_url = false ∧
    (∀ e, (pyStartsWith e "http://" || pyStartsWith e "https://") = false →
      (applyOps (APIClient.init b dh) ops).base_url ≠ "" →
      _build_url (applyOps (APIClient.init b dh) ops) e =
        (applyOps (APIClient.init b dh) ops).base_url ++ "/" ++ lstripSlash e ∧
      startsWithSlash (lstripSlash e) = false) := by
  refine ⟨endsWithSlash_applyOps _ _ (endsWithSlash_init b dh), ?_⟩
  intro e h hne
  exact ⟨by simp [_build_url, h, hne], startsWithSlash_lstripSlash e⟩

/-- Witness for C10 at concrete inputs. -/
theorem c10_base_url_invariant_witness :
    endsWithSlash (applyOps (APIClient.init "https://api.example.com" none)
        [ClientOp.setBaseUrl "https://api.staging.example.com//"]).base_url = false ∧
    _build_url (applyOps (APIClient.init "https://api.example.com" none)
        [ClientOp.setBaseUrl "https://api.staging.example.com//"]) "//posts/1" =
      "https://api.staging.example.com/posts/1" := by
  have h := c10_base_url_invariant "https://api.example.com" none
    [ClientOp.setBaseUrl "https://api.staging.example.com//"]
  refine ⟨h.1, ?_⟩
  have h2 := (h.2 "//posts/1" (by rfl) (by decide)).1
  rw [h2]
  rfl

lemma transport_map_error (t : Transport) (p : Prepared) (i : Nat) (e : PyExc)
    (h : t p i = .error e) : (t p i).map mkResult = Except.error e := by
  rw [h]
  rfl

lemma transport_map_ok (t : Transport) (p : Prepared) (i : Nat) (r : Response)
    (h : t p i = .ok r) : (t p i).map mkResult = Except.ok (mkResult r) := by
  rw [h]
  rfl

lemma retryGo_ok (f : Nat → Except PyExc RequestResult) (fuel n : Nat) (ws : List Nat)
    (r : RequestResult) (h : f (n - 1) = .ok r) :
    retryGo f fuel n ws = ⟨.ok r, n, ws⟩ := by
  unfold retryGo
  rw [h]

lemma retryGo_error_noretry (f : Nat → Except PyExc RequestResult) (fuel n : Nat)
    (ws : List Nat) (e : PyExc) (h : f (n - 1) = .error e) (hr : shouldRetry e = false) :
    retryGo f fuel n ws = ⟨.error (.direct e), n, ws⟩ := by
  unfold retryGo
  rw [h]
  simp [hr]

lemma retryGo_error_stop (f : Nat → Except PyExc RequestResult) (fuel n : Nat)
    (ws : List Nat) (e : PyExc) (h : f (n - 1) = .error e) (hr : shouldRetry e = true)
    (hs : stop_after_attempt 3 n = true) :
    retryGo f fuel n ws = ⟨.error (.retryError e), n, ws⟩ := by
  unfold retryGo
  rw [h]
  simp [hr, hs]

lemma retryGo_error_step (f : Nat → Except PyExc RequestResult) (fuel fuel' n : Nat)
    (ws : List Nat) (e : PyExc) (hfuel : fuel = fuel' + 1) (h : f (n - 1) = .error e)
    (hr : shouldRetry e = true) (hs : stop_after_attempt 3 n = false) :
    retryGo f fuel n ws =
      retryGo f fuel' (n + 1) (ws ++ [wait_exponential 1 2 10 n]) := by
  subst hfuel
  conv_lhs => rw [retryGo]
  rw [h]
  simp [hr, hs]

lemma request_after_two_failures (c : Client) (t : Transport) (method endpoint : String)
    (data : Option ReqData) (params : Option (List (String × String)))
    (headers : Option HdrList) (timeout : Nat) (p : Prepared)
    (hp : p = prepareRequest c method endpoint data params headers timeout)
    (e0 e1 : PyExc)
    (h0 : t p 0 = .error e0) (hr0 : shouldRetry e0 = true)
    (h1 : t p 1 = .error e1) (hr1 : shouldRetry e1 = true) :
    request c t method endpoint data params headers timeout =
      retryGo (fun i => (t p i).map mkResult) 1 3 [2, 2] := by
  unfold request
  rw [← hp]
  rw [retryGo_error_step (fun i => (t p i).map mkResult) 3 2 1 [] e0 rfl
    (transport_map_error t p 0 e0 h0) hr0 rfl]
  show retryGo (fun i => (t p i).map mkResult) 2 2 [2] =
    retryGo (fun i => (t p i).map mkResult) 1 3 [2, 2]
  rw [retryGo_error_step (fun i => (t p i).map mkResult) 2 1 2 [2] e1 rfl
    (transport_map_error t p 1 e1 h1) hr1 rfl]
  rfl

/-- C1 (amended): with a transport failing retryably on the first two
attempts and succeeding on the third, `request` returns the success result
after exactly 3 attempts with backoff waits of 2 seconds then 2 seconds
(the exponential series 1, 2, 4, ... with multiplier 1 is clamped below at
the min=2-second floor and above at the max=10-second cap, so the sleeps
after failed attempts 1 and 2 are both 2 seconds); with a transport
failing retryably on every attempt, `request` raises after exactly 3
attempts, with the same waits. -/
theorem c1_retry_backoff (c : Client) (t : Transport) (method endpoint : String)
    (data : Option ReqData) (params : Option (List (String × String)))
    (headers : Option HdrList) (timeout : Nat) (p : Prepared)
    (hp : p = prepareRequest c method endpoint data params headers timeout)
    (e0 e1 e2 : PyExc) (r : Response) :
    (t p 0 = .error e0 → shouldRetry e0 = true →
     t p 1 = .error e1 → shouldRetry e1 = true →
     t p 2 = .ok r →
     request c t method endpoint data params headers timeout =
       ⟨.ok (mkResult r), 3, [2, 2]⟩) ∧
    (t p 0 = .error e0 → shouldRetry e0 = true →
     t p 1 = .error e1 → shouldRetry e1 = true →
     t p 2 = .error e2 → shouldRetry e2 = true →
     request c t method endpoint data params headers timeout =
       ⟨.error (.retryError e2), 3, [2, 2]⟩) := by
  constructor
  · intro h0 hr0 h1 hr1 h2
    rw [request_after_two_failures c t method endpoint data params headers timeout p hp
      e0 e1 h0 hr0 h1 hr1]
    exact retryGo_ok _ 1 3 [2, 2] (mkResult r) (transport_map_ok t p 2 r h2)
  · intro h0 hr0 h1 hr1 h2 hr2
    rw [request_after_two_failures c t method endpoint data params headers timeout p hp
      e0 e1 h0 hr0 h1 hr1]
    exact retryGo_error_stop _ 1 3 [2, 2] e2 (transport_map_error t p 2 e2 h2) hr2 rfl

/-- Counterexample to C1 as stated: with a transport that raises a
connection error on the first two attempts and succeeds on the third, the
backoff waits are [2, 2], not [2, 4] (the cumulative backoff is 4 seconds,
not 6). -/
theorem c1_counterexample :
    (request clientEx transportFailTwice "GET" "posts" none none none 30).waits ≠ [2, 4] ∧
    (request clientEx transportFailTwice "GET" "posts" none none none 30).waits = [2, 2] :=
  ⟨by decide, rfl⟩

/-- Witness for C1 (amended) at concrete inputs. -/
theorem c1_retry_backoff_witness :
    request clientEx transportFailTwice "GET" "posts" none none none 30 =
      ⟨.ok (mkResult respOk), 3, [2, 2]⟩ ∧
    request clientEx transportAlwaysConnectError "GET" "posts" none none none 30 =
      ⟨.error (.retryError .connectError), 3, [2, 2]⟩ :=
  ⟨(c1_retry_backoff clientEx transportFailTwice "GET" "posts" none none none 30 _ rfl
      .connectError .connectError .connectError respOk).1 rfl rfl rfl rfl rfl,
   (c1_retry_backoff clientEx transportAlwaysConnectError "GET" "posts" none none none 30 _ rfl
      .connectError .connectError .connectError respOk).2 rfl rfl rfl rfl rfl rfl⟩

/-- C2: when all 3 attempts fail with a retryable error, what propagates
is tenacity's `RetryError` wrapping exactly the exception raised by the
transport on the last attempt (logged and re-raised at lines 117-119,
not swallowed and not replaced by an exception that loses it: the final
transport exception is carried in the raised error). -/
theorem c2_final_exception (c : Client) (t : Transport) (method endpoint : String)
    (data : Option ReqData) (params : Option (List (String × String)))
    (headers : Option HdrList) (timeout : Nat) (p : Prepared)
    (hp : p = prepareRequest c method endpoint data params headers timeout)
    (e0 e1 e2 : PyExc)
    (h0 : t p 0 = .error e0) (hr0 : shouldRetry e0 = true)
    (h1 : t p 1 = .error e1) (hr1 : shouldRetry e1 = true)
    (h2 : t p 2 = .error e2) (hr2 : shouldRetry e2 = true) :
    (request c t method endpoint data params headers timeout).outcome =
      Except.error (Raised.retryError e2) := by
  rw [request_after_two_failures c t method endpoint data params headers timeout p hp
    e0 e1 h0 hr0 h1 hr1]
  rw [retryGo_error_stop _ 1 3 [2, 2] e2 (transport_map_error t p 2 e2 h2) hr2 rfl]

/-- Witness for C2: the transport raises connection errors on attempts 1
and 2 and a read timeout on attempt 3; the propagated error wraps the
read timeout, not the earlier connection errors. -/
theorem c2_final_exception_witness :
    (request clientEx transportLastReadTimeout "GET" "posts" none none none 30).outcome =
      Except.error (Raised.retryError .readTimeout) :=
  c2_final_exception clientEx transportLastReadTimeout "GET" "posts" none none none 30 _ rfl
    .connectError .connectError .readTimeout rfl rfl rfl rfl rfl rfl

/-- Counterexample to C3 as stated: an `httpx.DecodingError` is neither
a transport-level connection/network error nor a read-timeout error, yet
`request` does not propagate it immediately on the first attempt — the
retry predicate covers all of `httpx.RequestError`, so the call retries
it for the full 3 attempts (with the backoff waits) before raising. -/
theorem c3_counterexample :
    isNetworkError PyExc.decodingError = false ∧
    isReadTimeout PyExc.decodingError = false ∧
    request clientEx transportDecodingError "GET" "posts" none none none 30 =
      ⟨.error (.retryError .decodingError), 3, [2, 2]⟩ ∧
    (request clientEx transportDecodingError "GET" "posts" none none none 30).attempts ≠ 1 :=
  ⟨rfl, rfl, rfl, by decide⟩

/-- C3 (amended): the retry predicate
`retry_if_exception_type((httpx.RequestError, httpx.ReadTimeout))`
retries exactly the `httpx.RequestError` class (`ReadTimeout` is itself
a `RequestError` subclass, so the pair collapses to one class).  That
class contains every connection/network error and the read timeout, but
strictly more (e.g. `DecodingError` is retried though it is neither);
any exception outside `httpx.RequestError` — e.g. a malformed-URL
`InvalidURL` failure — propagates on the first attempt, with no retry
and no backoff wait, while a `RequestError` failure on the first
attempt leads to a second attempt after a backoff wait. -/
theorem c3_retry_classes (c : Client) (t : Transport) (method endpoint : String)
    (data : Option ReqData) (params : Option (List (String × String)))
    (headers : Option HdrList) (timeout : Nat) (p : Prepared)
    (hp : p = prepareRequest c method endpoint data params headers timeout)
    (e : PyExc) (r : Response) :
    (∀ e', shouldRetry e' = isRequestError e') ∧
    (∀ e', isNetworkError e' = true → shouldRetry e' = true) ∧
    shouldRetry PyExc.readTimeout = true ∧
    (shouldRetry PyExc.decodingError = true ∧
      isNetworkError PyExc.decodingError = false ∧
      isReadTimeout PyExc.decodingError = false) ∧
    shouldRetry PyExc.invalidURL = false ∧
    (t p 0 = .error e → shouldRetry e = false →
      request c t method endpoint data params headers timeout =
        ⟨.error (.direct e), 1, []⟩) ∧
    (t p 0 = .error e → shouldRetry e = true → t p 1 = .ok r →
      request c t method endpoint data params headers timeout =
        ⟨.ok (mkResult r), 2, [2]⟩) := by
  refine ⟨?_, ?_, rfl, ⟨rfl, rfl, rfl⟩, rfl, ?_, ?_⟩
  · intro e'
    cases e' <;> rfl
  · intro e' h'
    cases e' <;> simp_all [isNetworkError, shouldRetry, isRequestError, isReadTimeout]
  · intro h0 hr
    unfold request
    rw [← hp]
    exact retryGo_error_noretry _ 3 1 [] e (transport_map_error t p 0 e h0) hr
  · intro h0 hr h1
    unfold request
    rw [← hp]
    rw [retryGo_error_step (fun i => (t p i).map mkResult) 3 2 1 [] e rfl
      (transport_map_error t p 0 e h0) hr rfl]
    show retryGo (fun i => (t p i).map mkResult) 2 2 [2] =
      ⟨.ok (mkResult r), 2, [2]⟩
    exact retryGo_ok _ 2 2 [2] (mkResult r) (transport_map_ok t p 1 r h1)

/-- Witness for C3 (amended): a malformed-URL failure propagates
immediately after one attempt with no waits, while a `DecodingError` —
retryable though not a network/read-timeout error — is followed by a
successful second attempt after one 2-second wait. -/
theorem c3_retry_classes_witness :
    request clientEx transportInvalidURL "GET" "posts" none none none 30 =
      ⟨.error (.direct .invalidURL), 1, []⟩ ∧
    request clientEx transportDecodingThenOk "GET" "posts" none none none 30 =
      ⟨.ok (mkResult respOk), 2, [2]⟩ :=
  ⟨(c3_retry_classes clientEx transportInvalidURL "GET" "posts" none none none 30 _ rfl
      PyExc.invalidURL respOk).2.2.2.2.2.1 rfl rfl,
   (c3_retry_classes clientEx transportDecodingThenOk "GET" "posts" none none none 30 _ rfl
      PyExc.decodingError respOk).2.2.2.2.2.2 rfl rfl rfl⟩

/-- C5: for every response received by `request`, the body is normalized
without raising: with an `application/json` content-type and a valid JSON
body, `data` is the parsed structure; with any other content-type, or a
body whose parse fails, `data` is the raw text.  The call returns the
normalized result (one attempt, no waits) in every case. -/
theorem c5_response_parsing (c : Client) (t : Transport) (method endpoint : String)
    (data : Option ReqData) (params : Option (List (String × String)))
    (headers : Option HdrList) (timeout : Nat) (p : Prepared)
    (hp : p = prepareRequest c method endpoint data params headers timeout)
    (r : Response) (h : t p 0 = .ok r) :
    request c t method endpoint data params headers timeout =
      ⟨.ok (mkResult r), 1, []⟩ ∧
    (∀ j, pyStartsWith (headersGet r.headers "content-type" "") "application/json" = true →
      r.jsonResult = .ok j → (mkResult r).data = .jsonData j) ∧
    (pyStartsWith (headersGet r.headers "content-type" "") "application/json" = false →
      (mkResult r).data = .textData r.text) ∧
    (pyStartsWith (headersGet r.headers "content-type" "") "application/json" = true →
      r.jsonResult = .error () → (mkResult r).data = .textData r.text) := by
  refine ⟨?_, ?_, ?_, ?_⟩
  · unfold request
    rw [← hp]
    exact retryGo_ok _ 3 1 [] (mkResult r) (transport_map_ok t p 0 r h)
  · intro j hct hj
    simp [mkResult, parseBody, hct, hj]
  · intro hct
    simp [mkResult, parseBody, hct]
  · intro hct hj
    simp [mkResult, parseBody, hct, hj]

/-- Witness for C5 at concrete inputs: a JSON response parses into
structured data; a non-JSON response falls back to raw text. -/
theorem c5_response_parsing_witness :
    request clientEx transportOk "GET" "posts/1" none none none 30 =
      ⟨.ok (mkResult respOk), 1, []⟩ ∧
    (mkResult respOk).data = .jsonData (.obj [("id", .num 1)]) ∧
    (mkResult resp404).data = .textData "not found" := by
  have h := c5_response_parsing clientEx transportOk "GET" "posts/1" none none none 30
    _ rfl respOk rfl
  exact ⟨h.1, h.2.1 (.obj [("id", .num 1)]) (by rfl) rfl, by rfl⟩

/-- C6: `health_check` performs a GET of the fixed relative endpoint
`health` with a 5-second timeout, returns true iff the resulting status
is exactly 200, and converts every raised error into `false` (it is a
total Boolean function of the transport outcome). -/
theorem c6_health_check (c : Client) (t : Transport) :
    (health_check c t = true ↔
      (∃ res, (request c t "GET" "health" none none none 5).outcome = .ok res ∧
        res.status = 200)) ∧
    (∀ err, (request c t "GET" "health" none none none 5).outcome = .error err →
      health_check c t = false) ∧
    (prepareRequest c "GET" "health" none none none 5).method = "GET" ∧
    (prepareRequest c "GET" "health" none none none 5).timeout = 5 ∧
    (prepareRequest c "GET" "health" none none none 5).url = _build_url c "health" ∧
    (prepareRequest c "GET" "health" none none none 5).body = Body.empty := by
  refine ⟨?_, ?_, rfl, rfl, rfl, rfl⟩
  · unfold health_check get
    cases hout : (request c t "GET" "health" none none none 5).outcome with
    | ok res => simp [hout, beq_iff_eq]
    | error err => simp [hout]
  · intro err herr
    unfold health_check get
    simp [herr]

/-- Witness for C6: a transport that always raises a read timeout on the
`health` endpoint makes `health_check` return false, not raise. -/
theorem c6_health_check_witness :
    health_check clientEx transportReadTimeout = false :=
  (c6_health_check clientEx transportReadTimeout).2.1 (.retryError .readTimeout) rfl

/-- C7: the `data` argument is serialized per its runtime shape: a
mapping or sequence becomes the `json=` payload (JSON-serialized on the
wire); any other non-null value becomes the raw `content=` payload equal
to its string representation; absent data sends no body.  The prepared
kwargs are exactly what the retried transport call receives. -/
theorem c7_data_serialization (c : Client) (t : Transport) (method endpoint : String)
    (data : Option ReqData) (params : Option (List (String × String)))
    (headers : Option HdrList) (timeout : Nat) :
    request c t method endpoint data params headers timeout =
      retryGo (fun i =>
        (t (prepareRequest c method endpoint data params headers timeout) i).map mkResult)
        3 1 [] ∧
    (∀ fields, data = some (.dict fields) →
      (prepareRequest c method endpoint data params headers timeout).body =
        .jsonBody (.obj fields) ∧
      wireContent (prepareRequest c method endpoint data params headers timeout).body =
        some (jsonSerialize (.obj fields))) ∧
    (∀ elems, data = some (.list elems) →
      (prepareRequest c method endpoint data params headers timeout).body =
        .jsonBody (.arr elems) ∧
      wireContent (prepareRequest c method endpoint data params headers timeout).body =
        some (jsonSerialize (.arr elems))) ∧
    (∀ s, data = some (.strVal s) →
      (prepareRequest c method endpoint data params headers timeout).body = .content s) ∧
    (∀ n, data = some (.intVal n) →
      (prepareRequest c method endpoint data params headers timeout).body =
        .content (pyStr (.intVal n))) ∧
    (∀ b, data = some (.boolVal b) →
      (prepareRequest c method endpoint data params headers timeout).body =
        .content (pyStr (.boolVal b))) ∧
    (data = none →
      (prepareRequest c method endpoint data params headers timeout).body = .empty ∧
      wireContent (prepareRequest c method endpoint data params headers timeout).body =
        none) := by
  refine ⟨rfl, ?_, ?_, ?_, ?_, ?_, ?_⟩
  · intro fields hd
    subst hd
    exact ⟨rfl, rfl⟩
  · intro elems hd
    subst hd
    exact ⟨rfl, rfl⟩
  · intro s hd
    subst hd
    rfl
  · intro n hd
    subst hd
    rfl
  · intro b hd
    subst hd
    rfl
  · intro hd
    subst hd
    exact ⟨rfl, rfl⟩

/-- Witness for C7: a dict body is JSON-serialized; a scalar body is sent
as its string form; no data sends no body. -/
theorem c7_data_serialization_witness :
    (prepareRequest clientEx "POST" "posts" (some (.dict [("a", .num 1)])) none none 30).body =
      .jsonBody (.obj [("a", .num 1)]) ∧
    wireContent (prepareRequest clientEx "POST" "posts"
        (some (.dict [("a", .num 1)])) none none 30).body = some "\x7b\"a\": 1\x7d" ∧
    (prepareRequest clientEx "POST" "posts" (some (.intVal 7)) none none 30).body =
      .content "7" ∧
    (prepareRequest clientEx "GET" "posts" none none none 30).body = .empty := by
  have hd := c7_data_serialization clientEx transportOk "POST" "posts"
    (some (.dict [("a", .num 1)])) none none 30
  have hi := c7_data_serialization clientEx transportOk "POST" "posts"
    (some (.intVal 7)) none none 30
  have hn := c7_data_serialization clientEx transportOk "GET" "posts" none none none 30
  refine ⟨(hd.2.1 [("a", .num 1)] rfl).1, ?_, hi.2.2.2.2.1 7 rfl, (hn.2.2.2.2.2.2 rfl).1⟩
  have h2 := (hd.2.1 [("a", .num 1)] rfl).2
  rw [h2]
  rfl

/-- C8: the result's `ok` flag is httpx `is_success`, true iff the status
is in 200-299; a 4xx/5xx response is returned as a normal result on the
first attempt (no exception, no retry), with `status` echoing the
response's status code. -/
theorem c8_ok_flag (c : Client) (t : Transport) (method endpoint : String)
    (data : Option ReqData) (params : Option (List (String × String)))
    (headers : Option HdrList) (timeout : Nat) (p : Prepared)
    (hp : p = prepareRequest c method endpoint data params headers timeout)
    (r : Response) (h : t p 0 = .ok r) :
    request c t method endpoint data params headers timeout =
      ⟨.ok (mkResult r), 1, []⟩ ∧
    ((mkResult r).ok = true ↔ (200 ≤ r.status_code ∧ r.status_code ≤ 299)) ∧
    (mkResult r).status = r.status_code := by
  refine ⟨?_, ?_, rfl⟩
  · unfold request
    rw [← hp]
    exact retryGo_ok _ 3 1 [] (mkResult r) (transport_map_ok t p 0 r h)
  · simp [mkResult, is_success, Bool.and_eq_true, decide_eq_true_eq]

/-- Witness for C8: a 404 response yields a normal result with ok =
false after a single attempt. -/
theorem c8_ok_flag_witness :
    request clientEx transport404 "GET" "missing" none none none 30 =
      ⟨.ok (mkResult resp404), 1, []⟩ ∧
    (mkResult resp404).ok = false := by
  have h := c8_ok_flag clientEx transport404 "GET" "missing" none none none 30 _ rfl
    resp404 rfl
  exact ⟨h.1, rfl⟩

lemma headersGet_setHeader (hs : HdrList) (k v q d : String) :
    headersGet (setHeader hs k v) q d =
      if pyLower q == pyLower k then v else headersGet hs q d := by
  unfold setHeader headersGet
  by_cases hany : hs.any (fun kv => pyLower kv.1 == pyLower k)
  · rw [if_pos hany, List.find?_map]
    have hcomp : ((fun kv : String × String => pyLower kv.1 == pyLower q) ∘
        fun kv => if pyLower kv.1 == pyLower k then (kv.1, v) else kv) =
        fun kv : String × String => pyLower kv.1 == pyLower q := by
      funext kv
      by_cases hk : pyLower kv.1 == pyLower k
      · simp [Function.comp, hk]
      · simp [Function.comp, hk]
    rw [hcomp]
    by_cases hqk : pyLower q == pyLower k
    · rw [if_pos hqk]
      have hq' : pyLower q = pyLower k := by simpa using hqk
      rw [List.any_eq_true] at hany
      obtain ⟨kv0, hmem0, hkv0⟩ := hany
      cases hfind : hs.find? (fun kv => pyLower kv.1 == pyLower q) with
      | none =>
        exfalso
        rw [List.find?_eq_none] at hfind
        apply hfind kv0 hmem0
        rw [hq']
        exact hkv0
      | some kv =>
        have hq := List.find?_some hfind
        have hk : (pyLower kv.1 == pyLower k) = true := by
          rw [← hq']
          exact hq
        simp [hk]
        rw [if_pos (by simpa using hk)]
    · rw [if_neg hqk]
      cases hfind : hs.find? (fun kv => pyLower kv.1 == pyLower q) with
      | none => rfl
      | some kv =>
        have hq := List.find?_some hfind
        have hk : (pyLower kv.1 == pyLower k) = false := by
          rw [beq_eq_false_iff_ne]
          intro hcon
          apply hqk
          have hq2 : pyLower kv.1 = pyLower q := by simpa using hq
          rw [← hq2, hcon]
          exact beq_self_eq_true (pyLower k)
        simp [hk]
        rw [if_neg (by rw [beq_eq_false_iff_ne] at hk; exact hk)]
  · rw [if_neg hany, List.find?_append]
    by_cases hqk : pyLower q == pyLower k
    · rw [if_pos hqk]
      have hq' : pyLower q = pyLower k := by simpa using hqk
      have hnone : hs.find? (fun kv => pyLower kv.1 == pyLower q) = none := by
        rw [List.find?_eq_none]
        intro kv hmem hkv
        apply hany
        rw [List.any_eq_true]
        refine ⟨kv, hmem, ?_⟩
        rw [← hq']
        exact hkv
      rw [hnone]
      simp [List.find?, hq']
    · rw [if_neg hqk]
      have hne : (pyLower k == pyLower q) = false := by
        rw [beq_eq_false_iff_ne]
        intro hcon
        apply hqk
        rw [hcon]
        exact beq_self_eq_true (pyLower q)
      cases hfind : hs.find? (fun kv => pyLower kv.1 == pyLower q) with
      | none => simp [hfind, List.find?, hne]
      | some kv => simp [hfind]

lemma headersGet_mergeHeaders_absent (base ov : HdrList) (q d : String)
    (h : ov.all (fun kv => !(pyLower kv.1 == pyLower q)) = true) :
    headersGet (mergeHeaders base ov) q d = headersGet base q d := by
  induction ov generalizing base with
  | nil => rfl
  | cons kv rest ih =>
    simp only [List.all_cons, Bool.and_eq_true] at h
    have hne : (pyLower q == pyLower kv.1) = false := by
      have h1 := h.1
      simp only [Bool.not_eq_true'] at h1
      rw [beq_eq_false_iff_ne] at h1 ⊢
      intro hh
      exact h1 hh.symm
    show headersGet (mergeHeaders (setHeader base kv.1 kv.2) rest) q d = headersGet base q d
    rw [ih (setHeader base kv.1 kv.2) h.2, headersGet_setHeader, hne]
    simp

/-- C9 (amended): after `set_auth_token(t)`, every subsequent request
whose per-call header override does not itself set an Authorization
header (case-insensitively) carries the effective wire header
`Authorization: Bearer t`; the call changes no other client state (the
base URL and every other header key are untouched). -/
theorem c9_auth_token (c : Client) (tok : String) (method endpoint : String)
    (data : Option ReqData) (params : Option (List (String × String)))
    (hs : Option HdrList) (timeout : Nat)
    (hov : (hs.getD []).all (fun kv => !(pyLower kv.1 == pyLower "Authorization")) = true) :
    headersGet (prepareRequest (set_auth_token c tok) method endpoint data params hs
        timeout).headers "Authorization" "" = "Bearer " ++ tok ∧
    (set_auth_token c tok).base_url = c.base_url ∧
    (∀ k d, pyLower k ≠ pyLower "Authorization" →
      headersGet (set_auth_token c tok).headers k d = headersGet c.headers k d) := by
  refine ⟨?_, rfl, ?_⟩
  · show headersGet (mergeHeaders (set_auth_token c tok).headers (hs.getD []))
      "Authorization" "" = "Bearer " ++ tok
    rw [headersGet_mergeHeaders_absent _ _ _ _ hov]
    show headersGet (setHeader c.headers "Authorization" ("Bearer " ++ tok))
      "Authorization" "" = "Bearer " ++ tok
    rw [headersGet_setHeader]
    simp
  · intro k d hk
    show headersGet (setHeader c.headers "Authorization" ("Bearer " ++ tok)) k d =
      headersGet c.headers k d
    rw [headersGet_setHeader]
    have hne : (pyLower k == pyLower "Authorization") = false := by
      rw [beq_eq_false_iff_ne]
      exact hk
    rw [hne]
    simp

/-- Counterexample to C9 as stated: a request whose per-call header
override itself sets Authorization does not carry the token installed by
`set_auth_token` (httpx merges per-call headers over client defaults,
per-call wins). -/
theorem c9_counterexample :
    headersGet (prepareRequest (set_auth_token (APIClient.init "" none) "abc") "GET" "x"
        none none (some [("Authorization", "Bearer other")]) 30).headers
      "Authorization" "" = "Bearer other" ∧
    ("Bearer other" : String) ≠ "Bearer abc" :=
  ⟨rfl, by decide⟩

/-- Witness for C9 (amended) at concrete inputs. -/
theorem c9_auth_token_witness :
    headersGet (prepareRequest (set_auth_token clientEx "abc") "GET" "users" none none
        none 30).headers "Authorization" "" = "Bearer abc" :=
  (c9_auth_token clientEx "abc" "GET" "users" none none none 30 (by rfl)).1

end PWClient
